import Mathlib

/-!
Shallow embedding of the MCP-server packages in this repository
(PostgreSQL, MySQL, Datadog, AWS Secrets Manager), covering the
data model and operations referenced by the frozen claims:
read-only SQL validation, per-call connection lifecycle, tool
handlers and their result envelopes, error classification, the
Datadog spans-metrics fan-out, and the server start/shutdown paths.

JavaScript exceptions are modelled with `Except`; thrown values with
the `Thrown` sum; JSON payloads with the `Json` inductive (a handler
that writes `JSON.stringify(x)` into the envelope text stores the
structured value `x`; a handler that writes a plain template string
stores the raw string).  External I/O (the pg / mysql2 drivers, the
Datadog metrics API, the AWS SDK) is an oracle passed in as data.
-/

/-- Minimal JSON value model for envelope payloads. -/
inductive Json where
  | str (s : String)
  | num (n : Int)
  | bool (b : Bool)
  | null
  | arr (elems : List Json)
  | obj (fields : List (String × Json))

/-- Field lookup on a JSON object (first binding wins, as in a JS object literal). -/
def jsonLookup (j : Json) (key : String) : Option Json :=
  match j with
  | .obj fields => lookupField fields key
  | _ => none
where
  lookupField : List (String × Json) → String → Option Json
    | [], _ => none
    | (k, v) :: rest, key => if k = key then some v else lookupField rest key

/-- Property access `c[k]` with JS-undefined collapsed to JSON null. -/
def jfield (j : Json) (key : String) : Json :=
  (jsonLookup j key).getD .null

/-- Classified error of the PostgreSQL package (class PostgreSQLMCPError). -/
structure PostgreSQLMCPError where
  message : String
  code : Option String := none
  detail : Option String := none
deriving DecidableEq

/-- Classified error of the MySQL package (class MySQLMCPError). -/
structure MySQLMCPError where
  message : String
  code : Option String := none
  sqlState : Option String := none
deriving DecidableEq

/-- Classified error of the AWS Secrets Manager package
(class AWSSecretsManagerMCPError); `causeMessage` models the optional
`cause` Error by its message. -/
structure AWSSecretsManagerMCPError where
  message : String
  code : String
  causeMessage : Option String := none
deriving DecidableEq

/-- Classified error of the Datadog package (class DatadogMCPError);
`causeMessage` models the optional `cause` Error by its message. -/
structure DatadogMCPError where
  message : String
  code : String
  causeMessage : Option String := none
deriving DecidableEq

/-- A JavaScript thrown value as seen by a catch block: one of the
packages' recognized error classes, a plain `Error`, or a non-Error
value (carrying its `String(...)` rendering). -/
inductive Thrown where
  | pgMCP (e : PostgreSQLMCPError)
  | myMCP (e : MySQLMCPError)
  | awsMCP (e : AWSSecretsManagerMCPError)
  | ddMCP (e : DatadogMCPError)
  | jsErr (message : String)
  | nonErrorValue (rendered : String)
deriving DecidableEq

/-- `error instanceof Error` (all MCP error classes extend Error). -/
def Thrown.isJsError : Thrown → Bool
  | .nonErrorValue _ => false
  | _ => true

/-- Property access `error.message` (undefined stringifies to "undefined"). -/
def Thrown.jsMessage : Thrown → String
  | .pgMCP e => e.message
  | .myMCP e => e.message
  | .awsMCP e => e.message
  | .ddMCP e => e.message
  | .jsErr m => m
  | .nonErrorValue _ => "undefined"

/-- The idiom `error instanceof Error ? error.message : "Unknown error"`. -/
def Thrown.messageOrUnknown (t : Thrown) : String :=
  if t.isJsError then t.jsMessage else "Unknown error"

/-- The idiom `error instanceof Error ? error.message : String(error)`. -/
def Thrown.messageOrRendered : Thrown → String
  | .nonErrorValue s => s
  | t => t.jsMessage

/-- Property access `(error as DatabaseError).code` across thrown shapes. -/
def Thrown.dbCode : Thrown → Option String
  | .pgMCP e => e.code
  | .myMCP e => e.code
  | .awsMCP e => some e.code
  | .ddMCP e => some e.code
  | .jsErr _ => none
  | .nonErrorValue _ => none

/-- Property access `(error as pg.DatabaseError).detail`. -/
def Thrown.dbDetail : Thrown → Option String
  | .pgMCP e => e.detail
  | _ => none

/-- Property access `(error as mysql.QueryError).sqlState`. -/
def Thrown.dbSqlState : Thrown → Option String
  | .myMCP e => e.sqlState
  | _ => none

/-- Text payload of one envelope content item: either the result of
`JSON.stringify` on a structured value, or a plain template string. -/
inductive EnvelopeText where
  | jsonText (j : Json)
  | plainText (s : String)

/-- One item of `content` in an MCP tool result. -/
structure TextItem where
  type : String
  text : EnvelopeText

/-- The universal MCP result envelope `{content: [{type: "text", text}]}`. -/
structure McpToolResult where
  content : List TextItem

/-- An envelope is well-formed when it has exactly one content item of type "text". -/
def wellFormedEnvelope (r : McpToolResult) : Bool :=
  r.content.length = 1 && r.content.all (fun item => item.type = "text")

/-- The "error" field of an envelope whose single text item is a JSON object. -/
def envelopeErrorText (r : McpToolResult) : Option String :=
  match r.content with
  | [⟨_, .jsonText j⟩] =>
    match jsonLookup j "error" with
    | some (.str s) => some s
    | _ => none
  | _ => none

/-- JS regex `\s` character class (ASCII part). -/
def isJsSpace (c : Char) : Bool :=
  c = ' ' || c = '\t' || c = '\n' || c = '\r' || c = '\x0b' || c = '\x0c'

/-- JS regex `\w` character class (ASCII part). -/
def isWordChar (c : Char) : Bool :=
  c.isAlphanum || c = '_'

/-- `String.prototype.trim` on the character list. -/
def jsTrim (l : List Char) : List Char :=
  ((l.dropWhile isJsSpace).reverse.dropWhile isJsSpace).reverse

/-- `String.prototype.toLowerCase` on the character list (ASCII). -/
def jsToLower (l : List Char) : List Char :=
  l.map Char.toLower

/-- `pat.isPrefixOf s` on character lists. -/
def charsHasPrefix : List Char → List Char → Bool
  | [], _ => true
  | _ :: _, [] => false
  | p :: ps, c :: cs => p = c && charsHasPrefix ps cs

/-- `s.includes(pat)` on character lists. -/
def charsContains : List Char → List Char → Bool
  | [], pat => pat.isEmpty
  | s@(_ :: cs), pat => charsHasPrefix pat s || charsContains cs pat

/-- `String.prototype.includes`: `pat` occurs in `s`. -/
def strContains (s pat : String) : Bool :=
  charsContains s.data pat.data

/-- `pat` is a prefix of `s` (strings). -/
def strHasPrefix (s pat : String) : Bool :=
  charsHasPrefix pat.data s.data

/-- Character-list core of `kwThenSpace`: the string starts with `kw`
followed by one whitespace character. -/
def charsKwThenSpace : List Char → List Char → Bool
  | [], c :: _ => isJsSpace c
  | [], [] => false
  | _ :: _, [] => false
  | k :: ks, c :: cs => k = c && charsKwThenSpace ks cs

/-- Anchored regex `^kw\s` applied to the character list `s`. -/
def kwThenSpace (kw : String) (s : List Char) : Bool :=
  charsKwThenSpace kw.data s

/-- Drop one-or-more characters satisfying `p` (regex `X+` for a class `X`),
returning the rest, or `none` when the first character does not match. -/
def dropWhile1 (p : Char → Bool) : List Char → Option (List Char)
  | c :: cs => if p c then some (cs.dropWhile p) else none
  | [] => none

/-- The part of the PostgreSQL CTE regex after the literal "with":
`\s+\w+\s+as\s*\(`.  Maximal munch agrees with regex backtracking here
because the character classes at each boundary are disjoint. -/
def cteAfterWith (s : List Char) : Bool :=
  match dropWhile1 isJsSpace s with
  | none => false
  | some s1 =>
    match dropWhile1 isWordChar s1 with
    | none => false
    | some s2 =>
      match dropWhile1 isJsSpace s2 with
      | none => false
      | some s3 =>
        match s3 with
        | 'a' :: 's' :: s4 =>
          match s4.dropWhile isJsSpace with
          | '(' :: _ => true
          | _ => false
        | _ => false

/-- Anchored regex `^with\s+\w+\s+as\s*\(` applied to a character list. -/
def cteMatch : List Char → Bool
  | 'w' :: 'i' :: 't' :: 'h' :: rest => cteAfterWith rest
  | _ => false

/-- PostgreSQLConnection.validateReadOnlyQuery pattern test: the trimmed,
lower-cased query matches `^select\s`, `^show\s`, `^explain\s`, or
`^with\s+\w+\s+as\s*\(`. -/
def pgIsReadOnlyQuery (query : String) : Bool :=
  let t := jsToLower (jsTrim query.data)
  kwThenSpace "select" t || kwThenSpace "show" t || kwThenSpace "explain" t ||
    cteMatch t

/-- MySQLConnection.validateReadOnlyQuery pattern test: the trimmed,
lower-cased query matches `^select\s`, `^show\s`, `^describe\s`,
`^desc\s`, or `^explain\s`. -/
def mysqlIsReadOnlyQuery (query : String) : Bool :=
  let t := jsToLower (jsTrim query.data)
  kwThenSpace "select" t || kwThenSpace "show" t || kwThenSpace "describe" t ||
    kwThenSpace "desc" t || kwThenSpace "explain" t

/-- PostgreSQLConnection.validateReadOnlyQuery: throws
WRITE_OPERATION_NOT_ALLOWED when no read-only pattern matches. -/
def PostgreSQLConnection.validateReadOnlyQuery (query : String) :
    Except PostgreSQLMCPError Unit :=
  if pgIsReadOnlyQuery query then .ok ()
  else .error
    { message := "Only read-only queries are allowed (SELECT, SHOW, EXPLAIN, WITH...AS)"
      code := some "WRITE_OPERATION_NOT_ALLOWED" }

/-- MySQLConnection.validateReadOnlyQuery: throws
WRITE_OPERATION_NOT_ALLOWED when no read-only pattern matches. -/
def MySQLConnection.validateReadOnlyQuery (query : String) :
    Except MySQLMCPError Unit :=
  if mysqlIsReadOnlyQuery query then .ok ()
  else .error
    { message := "Only read-only queries are allowed (SELECT, SHOW, DESCRIBE, EXPLAIN)"
      code := some "WRITE_OPERATION_NOT_ALLOWED" }

/-- The driver row payload: `result.rows` (pg) / the first element of
`connection.execute` (mysql2), which the adapters test with `Array.isArray`. -/
inductive DriverRows where
  | rowsArray (rows : List Json)
  | nonArray (value : Json)

/-- Oracle for one SQL driver: outcome of opening a connection and of
running a given query text. -/
structure SqlBackend where
  connectResult : Except Thrown Unit
  queryResult : String → Except Thrown DriverRows

/-- Observable driver-level events of one executeQuery call. -/
inductive DbEvent where
  | connect
  | query (q : String)
  | endConn
deriving DecidableEq

/-- Number of times `end()` was invoked in an event trace. -/
def countEnd (evs : List DbEvent) : Nat :=
  evs.countP (fun e => e = DbEvent.endConn)

/-- The QueryResult record returned by both SQL adapters. -/
structure QueryResult where
  data : List Json
  rowCount : Nat
  executionTime : Nat

/-- PostgreSQLConnection.executeQuery: validate, then connect, query,
normalize rows, and release the client in a `finally`; driver errors are
re-thrown as PostgreSQLMCPError.  Returns the call outcome together with
the trace of driver events.  `execTime` stands for the measured
`Date.now()` difference. -/
def PostgreSQLConnection.executeQuery (be : SqlBackend) (execTime : Nat)
    (query : String) :
    Except PostgreSQLMCPError QueryResult × List DbEvent :=
  match PostgreSQLConnection.validateReadOnlyQuery query with
  | .error e => (.error e, [])
  | .ok _ =>
    match be.connectResult with
    | .error t =>
      -- createClient wraps the failure as CONNECTION_ERROR; the outer catch
      -- re-wraps that PostgreSQLMCPError; client is still null, so no end().
      (.error
        { message := "Query execution failed: " ++
            ("Failed to connect to PostgreSQL: " ++ t.messageOrUnknown)
          code := some "CONNECTION_ERROR" },
       [.connect])
    | .ok _ =>
      match be.queryResult query with
      | .ok rows =>
        let data := match rows with
          | .rowsArray l => l
          | .nonArray _ => []
        (.ok { data := data, rowCount := data.length, executionTime := execTime },
         [.connect, .query query, .endConn])
      | .error t =>
        (.error
          { message := "Query execution failed: " ++ t.jsMessage
            code := t.dbCode
            detail := t.dbDetail },
         [.connect, .query query, .endConn])

/-- MySQLConnection.executeQuery: same shape as the PostgreSQL adapter,
with the MySQL error wrapper (code and sqlState). -/
def MySQLConnection.executeQuery (be : SqlBackend) (execTime : Nat)
    (query : String) :
    Except MySQLMCPError QueryResult × List DbEvent :=
  match MySQLConnection.validateReadOnlyQuery query with
  | .error e => (.error e, [])
  | .ok _ =>
    match be.connectResult with
    | .error t =>
      (.error
        { message := "Query execution failed: " ++
            ("Failed to connect to MySQL: " ++ t.messageOrUnknown)
          code := some "CONNECTION_ERROR" },
       [.connect])
    | .ok _ =>
      match be.queryResult query with
      | .ok rows =>
        let data := match rows with
          | .rowsArray l => l
          | .nonArray _ => []
        (.ok { data := data, rowCount := data.length, executionTime := execTime },
         [.connect, .query query, .endConn])
      | .error t =>
        (.error
          { message := "Query execution failed: " ++ t.jsMessage
            code := t.dbCode
            sqlState := t.dbSqlState },
         [.connect, .query query, .endConn])

/-- Parameters of the read_query tool. -/
structure ReadQueryParams where
  query : String
deriving DecidableEq

/-- Parameters of the describe_table tool (PostgreSQL variant). -/
structure DescribeTableParams where
  tableName : String
  schemaName : String := "public"
deriving DecidableEq

/-- PostgreSQL tools error classification:
`error instanceof PostgreSQLMCPError ? "PostgreSQL Error: ..." : "Unexpected error: ..."`. -/
def pgClassifyErrorMessage (t : Thrown) : String :=
  match t with
  | .pgMCP e => "PostgreSQL Error: " ++ e.message
  | _ => "Unexpected error: " ++ t.messageOrUnknown

/-- MySQL tools error classification. -/
def mysqlClassifyErrorMessage (t : Thrown) : String :=
  match t with
  | .myMCP e => "MySQL Error: " ++ e.message
  | _ => "Unexpected error: " ++ t.messageOrUnknown

/-- AWS Secrets Manager tools error classification. -/
def awsClassifyErrorMessage (t : Thrown) : String :=
  match t with
  | .awsMCP e => "AWS Secrets Manager Error: " ++ e.message
  | _ => "Unexpected error: " ++ t.messageOrUnknown

/-- PostgreSQLMCPTools.readQuery try/catch body over the outcome of
`this.db.executeQuery(params.query)`: success is serialized as
{query, rowCount, executionTime, data}; any failure is absorbed into
{error, query}. -/
def PostgreSQLMCPTools.readQueryHandle (outcome : Except Thrown QueryResult)
    (params : ReadQueryParams) : McpToolResult :=
  match outcome with
  | .ok result =>
    ⟨[⟨"text", .jsonText (.obj
        [("query", .str params.query),
         ("rowCount", .num result.rowCount),
         ("executionTime", .str (toString result.executionTime ++ "ms")),
         ("data", .arr result.data)])⟩]⟩
  | .error t =>
    ⟨[⟨"text", .jsonText (.obj
        [("error", .str (pgClassifyErrorMessage t)),
         ("query", .str params.query)])⟩]⟩

/-- PostgreSQLMCPTools.readQuery composed with the adapter call. -/
def PostgreSQLMCPTools.readQuery (be : SqlBackend) (execTime : Nat)
    (params : ReadQueryParams) : McpToolResult :=
  PostgreSQLMCPTools.readQueryHandle
    ((PostgreSQLConnection.executeQuery be execTime params.query).1.mapError Thrown.pgMCP)
    params

/-- MySQLMCPTools.readQuery try/catch body (same shape, MySQL tag). -/
def MySQLMCPTools.readQueryHandle (outcome : Except Thrown QueryResult)
    (params : ReadQueryParams) : McpToolResult :=
  match outcome with
  | .ok result =>
    ⟨[⟨"text", .jsonText (.obj
        [("query", .str params.query),
         ("rowCount", .num result.rowCount),
         ("executionTime", .str (toString result.executionTime ++ "ms")),
         ("data", .arr result.data)])⟩]⟩
  | .error t =>
    ⟨[⟨"text", .jsonText (.obj
        [("error", .str (mysqlClassifyErrorMessage t)),
         ("query", .str params.query)])⟩]⟩

/-- MySQLMCPTools.readQuery composed with the adapter call. -/
def MySQLMCPTools.readQuery (be : SqlBackend) (execTime : Nat)
    (params : ReadQueryParams) : McpToolResult :=
  MySQLMCPTools.readQueryHandle
    ((MySQLConnection.executeQuery be execTime params.query).1.mapError Thrown.myMCP)
    params

/-- One column record mapped by PostgreSQLMCPTools.describeTable. -/
def pgFormatColumn (c : Json) : Json :=
  .obj [("name", jfield c "column_name"),
        ("type", jfield c "data_type"),
        ("nullable", .bool (match jsonLookup c "is_nullable" with
          | some (.str s) => s = "YES"
          | _ => false)),
        ("default", jfield c "column_default"),
        ("constraint", jfield c "constraint_type"),
        ("maxLength", jfield c "character_maximum_length")]

/-- PostgreSQLMCPTools.describeTable try/catch body over the outcome of
`this.db.describeTable(...)`: failures are absorbed into {error, tableName}. -/
def PostgreSQLMCPTools.describeTableHandle (outcome : Except Thrown (List Json))
    (params : DescribeTableParams) : McpToolResult :=
  match outcome with
  | .ok columns =>
    ⟨[⟨"text", .jsonText (.obj
        [("tableName", .str params.tableName),
         ("schema", .str params.schemaName),
         ("columnCount", .num columns.length),
         ("columns", .arr (columns.map pgFormatColumn))])⟩]⟩
  | .error t =>
    ⟨[⟨"text", .jsonText (.obj
        [("error", .str (pgClassifyErrorMessage t)),
         ("tableName", .str params.tableName)])⟩]⟩

/-- Parameters of the create_secret tool. -/
structure CreateSecretParams where
  name : String
  secretValue : String
  description : Option String := none
  tags : List (String × String) := []
deriving DecidableEq

/-- Parameters of the update_secret tool. -/
structure UpdateSecretParams where
  secretId : String
  secretValue : String
deriving DecidableEq

/-- Result record of the Secrets Manager wrapper for create/update. -/
structure SecretOpResult where
  arn : String
  name : String
  versionId : Option String := none
deriving DecidableEq

/-- Optional string rendered as a JSON field (undefined collapses to null). -/
def jsonOfOptStr : Option String → Json
  | some s => .str s
  | none => .null

/-- AWSSecretsManagerMCPTools.createSecret try/catch body over the outcome
of `this.client.createSecret(params)`: failures are absorbed into
{error, secretName}. -/
def AWSSecretsManagerMCPTools.createSecret (outcome : Except Thrown SecretOpResult)
    (params : CreateSecretParams) : McpToolResult :=
  match outcome with
  | .ok result =>
    ⟨[⟨"text", .jsonText (.obj
        [("success", .bool true),
         ("arn", .str result.arn),
         ("name", .str result.name),
         ("versionId", jsonOfOptStr result.versionId),
         ("message", .str ("Secret \"" ++ params.name ++ "\" created successfully"))])⟩]⟩
  | .error t =>
    ⟨[⟨"text", .jsonText (.obj
        [("error", .str (awsClassifyErrorMessage t)),
         ("secretName", .str params.name)])⟩]⟩

/-- AWSSecretsManagerMCPTools.updateSecret try/catch body: failures are
absorbed into {error, secretId}. -/
def AWSSecretsManagerMCPTools.updateSecret (outcome : Except Thrown SecretOpResult)
    (params : UpdateSecretParams) : McpToolResult :=
  match outcome with
  | .ok result =>
    ⟨[⟨"text", .jsonText (.obj
        [("success", .bool true),
         ("arn", .str result.arn),
         ("name", .str result.name),
         ("versionId", jsonOfOptStr result.versionId),
         ("message", .str ("Secret \"" ++ params.secretId ++ "\" updated successfully"))])⟩]⟩
  | .error t =>
    ⟨[⟨"text", .jsonText (.obj
        [("error", .str (awsClassifyErrorMessage t)),
         ("secretId", .str params.secretId)])⟩]⟩

/-- Parameters of the query_metrics tool (`from`/`to` as `fromTs`/`toTs`). -/
structure MetricQueryParams where
  query : String
  fromTs : Int
  toTs : Int
deriving DecidableEq

/-- Parameters of the get_spans_metrics tool (`end` as `endTs`). -/
structure SpansMetricsParams where
  startTs : Int
  endTs : Int
  service : Option String := none
  operation : Option String := none
  resource : Option String := none
  env : Option String := none
deriving DecidableEq

/-- DatadogClient.queryMetrics: pass the API response through, wrapping any
thrown value as DatadogMCPError METRICS_QUERY_FAILED.  `apiResult` is the
oracle outcome of `metricsApi.queryMetrics`. -/
def DatadogClient.queryMetrics (apiResult : Except Thrown Json) :
    Except DatadogMCPError Json :=
  match apiResult with
  | .ok r => .ok r
  | .error t =>
    .error { message := "Failed to query metrics: " ++ t.messageOrRendered
             code := "METRICS_QUERY_FAILED"
             causeMessage := if t.isJsError then some t.jsMessage else none }

/-- One series record as reshaped by DatadogMCPTools.queryMetrics. -/
def ddFormatSeries (s : Json) : Json :=
  .obj [("metric", jfield s "metric"),
        ("displayName", jfield s "displayName"),
        ("unit", jfield s "unit"),
        ("pointlist", jfield s "pointlist"),
        ("length", jfield s "length")]

/-- DatadogMCPTools.queryMetrics: no try/catch — a client failure
propagates out of the handler; only a success is wrapped in an envelope. -/
def DatadogMCPTools.queryMetrics (apiResult : Except Thrown Json)
    (_params : MetricQueryParams) : Except Thrown McpToolResult :=
  match DatadogClient.queryMetrics apiResult with
  | .error e => .error (.ddMCP e)
  | .ok result =>
    .ok ⟨[⟨"text", .jsonText (.obj
        [("status", jfield result "status"),
         ("series", match jsonLookup result "series" with
           | some (.arr l) => .arr (l.map ddFormatSeries)
           | _ => .null),
         ("fromDate", jfield result "fromDate"),
         ("toDate", jfield result "toDate"),
         ("query", jfield result "query"),
         ("message", jfield result "message")])⟩]⟩

/-- DatadogMCPTools.getActiveMetrics: the one Datadog handler with a
try/catch; on failure it returns a plain-text envelope
"Error retrieving active metrics: <message>".  `fromTs`/`toTs` stand for
the Date.now()-derived bounds. -/
def DatadogMCPTools.getActiveMetrics (apiResult : Except Thrown Json)
    (fromTs toTs : Int) : McpToolResult :=
  match DatadogClient.queryMetrics apiResult with
  | .ok mq =>
    ⟨[⟨"text", .jsonText (.obj
        [("availableMetrics", match jsonLookup mq "series" with
          | some (.arr l) => .arr (l.map (fun s => jfield s "metric"))
          | _ => .arr []),
         ("timeRange", .obj [("from", .num fromTs), ("to", .num toTs)])])⟩]⟩
  | .error e =>
    ⟨[⟨"text", .plainText ("Error retrieving active metrics: " ++
        (Thrown.ddMCP e).messageOrRendered)⟩]⟩

/-- The tag filter string built by DatadogClient.getSpansMetrics. -/
def spansTagFilter (params : SpansMetricsParams) : String :=
  let tags :=
    (match params.service with
      | some s => ["service:" ++ s]
      | none => []) ++
    (match params.env with
      | some e => ["env:" ++ e]
      | none => [])
  if tags.length > 0 then "\x7b" ++ String.intercalate "," tags ++ "\x7d" else ""

/-- The three sub-query strings issued by DatadogClient.getSpansMetrics. -/
def spansQueries (params : SpansMetricsParams) : List String :=
  let f := spansTagFilter params
  ["avg:trace.servlet.request.hits" ++ f,
   "avg:trace.servlet.request.duration" ++ f,
   "avg:trace.servlet.request.errors" ++ f]

/-- The query_info record attached to a spans-metrics result. -/
structure SpansQueryInfo where
  service : Option String
  operation : Option String
  resource : Option String
  env : Option String
deriving DecidableEq

/-- The merged record returned by DatadogClient.getSpansMetrics. -/
structure SpansMetricsValue where
  hits : Json
  duration : Json
  errors : Json
  query_info : SpansQueryInfo

/-- The single classified error produced when any spans sub-query fails. -/
def ddSpansWrap (t : Thrown) : DatadogMCPError :=
  { message := "Failed to get spans metrics: " ++ t.messageOrRendered
    code := "SPANS_METRICS_FAILED"
    causeMessage := if t.isJsError then some t.jsMessage else none }

/-- DatadogClient.getSpansMetrics: build the three tag-filtered queries,
issue all of them (Promise.all starts every sub-call before awaiting any),
fail as one unit with a SPANS_METRICS_FAILED error when any sub-call
rejects, and merge the three responses on success.  `api` is the oracle
for `metricsApi.queryMetrics`; the second component is the list of issued
sub-queries. -/
def DatadogClient.getSpansMetrics (api : String → Except Thrown Json)
    (params : SpansMetricsParams) :
    Except DatadogMCPError SpansMetricsValue × List String :=
  match spansQueries params with
  | [q1, q2, q3] =>
    (match api q1, api q2, api q3 with
      | .ok r1, .ok r2, .ok r3 =>
        .ok { hits := r1, duration := r2, errors := r3
              query_info :=
                ⟨params.service, params.operation, params.resource, params.env⟩ }
      | .error t, _, _ => .error (ddSpansWrap t)
      | _, .error t, _ => .error (ddSpansWrap t)
      | _, _, .error t => .error (ddSpansWrap t),
     [q1, q2, q3])
  | l => (.error (ddSpansWrap (.jsErr "unreachable")), l)

/-- Observable events of a server start sequence. -/
inductive StartEvent where
  | probeConnect
  | probeTest
  | bindTransport
  | cleanupRun
deriving DecidableEq

/-- Outcome of a server start sequence: the ordered events and the exit
status (`none` when the process keeps running). -/
structure StartOutcome where
  events : List StartEvent
  exitCode : Option Nat
deriving DecidableEq

/-- PostgreSQLMCPServer.start: `db.connect()`, then `db.testConnection()`;
only when both succeed is the stdio transport bound.  Any failure runs
`cleanup()` and exits with status 1.  `connectOk`/`testOk`/`bindOk` are the
oracle outcomes of the three awaited steps. -/
def PostgreSQLMCPServer.start (connectOk testOk bindOk : Bool) : StartOutcome :=
  if !connectOk then ⟨[.probeConnect, .cleanupRun], some 1⟩
  else if !testOk then ⟨[.probeConnect, .probeTest, .cleanupRun], some 1⟩
  else if !bindOk then ⟨[.probeConnect, .probeTest, .bindTransport, .cleanupRun], some 1⟩
  else ⟨[.probeConnect, .probeTest, .bindTransport], none⟩

/-- MySQLMCPServer.start: same sequence as the PostgreSQL server. -/
def MySQLMCPServer.start (connectOk testOk bindOk : Bool) : StartOutcome :=
  if !connectOk then ⟨[.probeConnect, .cleanupRun], some 1⟩
  else if !testOk then ⟨[.probeConnect, .probeTest, .cleanupRun], some 1⟩
  else if !bindOk then ⟨[.probeConnect, .probeTest, .bindTransport, .cleanupRun], some 1⟩
  else ⟨[.probeConnect, .probeTest, .bindTransport], none⟩

/-- PostgreSQLConnection.disconnect: a no-op that always resolves. -/
def PostgreSQLConnection.disconnect : Except Thrown Unit := .ok ()

/-- PostgreSQLMCPServer.cleanup: awaits `db.disconnect()` inside try/catch,
absorbing any failure (logging it); returns whether an error was logged.
It never throws. -/
def PostgreSQLMCPServer.cleanup (disconnectOutcome : Except Thrown Unit) :
    Except Thrown Bool :=
  match disconnectOutcome with
  | .ok _ => .ok false
  | .error _ => .ok true

/-- The shutdown closure installed by setupGracefulShutdown: run cleanup,
then `process.exit(0)`; the resulting exit status is returned. -/
def PostgreSQLMCPServer.shutdown (disconnectOutcome : Except Thrown Unit) :
    Except Thrown Nat :=
  match PostgreSQLMCPServer.cleanup disconnectOutcome with
  | .ok _ => .ok 0
  | .error e => .error e

/-- Deliver a sequence of termination signals: each one invokes the
shutdown closure on the disconnect outcome it observes. -/
def PostgreSQLMCPServer.handleSignals (ds : List (Except Thrown Unit)) :
    List (Except Thrown Nat) :=
  ds.map PostgreSQLMCPServer.shutdown

/-- Field lookup on the JSON payload of an envelope's single text item. -/
def envelopeField (r : McpToolResult) (key : String) : Option Json :=
  match r.content with
  | [⟨_, .jsonText j⟩] => jsonLookup j key
  | _ => none

/-- Sample row returned by the mocked driver. -/
def rowAlice : Json := .obj [("id", .num 1), ("name", .str "Alice")]

/-- Second sample row returned by the mocked driver. -/
def rowBob : Json := .obj [("id", .num 2), ("name", .str "Bob")]

/-- Mocked backend: connection succeeds, every query returns two rows. -/
def beTwoRows : SqlBackend := ⟨.ok (), fun _ => .ok (.rowsArray [rowAlice, rowBob])⟩

/-- Mocked backend: connection succeeds, the driver returns a non-array
row payload (as a write-style result header would). -/
def beNonArray : SqlBackend :=
  ⟨.ok (), fun _ => .ok (.nonArray (.obj [("affectedRows", .num 0)]))⟩

/-- Mocked backend: connection succeeds, every query is rejected by the
driver. -/
def beQueryFail : SqlBackend := ⟨.ok (), fun _ => .error (.jsErr "boom")⟩

/-- Mocked Datadog metrics API: echoes the query back as the response. -/
def apiEcho : String → Except Thrown Json := fun q => .ok (.str q)

/-- Mocked Datadog metrics API: every sub-query rejects. -/
def apiFail : String → Except Thrown Json := fun _ => .error (.jsErr "API Error")

/-- Spans-metrics parameters used in witnesses. -/
def spansParamsW : SpansMetricsParams :=
  ⟨1609459200, 1609459800, some "api", none, none, some "production"⟩

/-- C1 counterexample: the claim asserts one shared allow-list
(`select`, `show`, `explain`, `describe`/`desc`, `with <ident> as (`)
for both SQL adapters, with every query beginning with one of those
prefixes passing in both.  In the code the lists differ: PostgreSQL
rejects "describe users" (which MySQL accepts), and MySQL rejects the
CTE opener "with cte as (select 1) select * from cte" (which PostgreSQL
accepts). -/
theorem claim_C1_counterexample :
    (PostgreSQLConnection.validateReadOnlyQuery "describe users").isOk = false
    ∧ (MySQLConnection.validateReadOnlyQuery "describe users").isOk = true
    ∧ (PostgreSQLConnection.validateReadOnlyQuery
        "with cte as (select 1) select * from cte").isOk = true
    ∧ (MySQLConnection.validateReadOnlyQuery
        "with cte as (select 1) select * from cte").isOk = false := by
  refine ⟨by decide, by decide, by decide, by decide⟩

/-- C1 (amended): each adapter enforces its own read-only allow-list on
the trimmed, lower-cased statement — PostgreSQL: `select`/`show`/`explain`
followed by whitespace, or `with <ident> as (`; MySQL: `select`/`show`/
`describe`/`desc`/`explain` followed by whitespace.  A statement not
matching is rejected with WRITE_OPERATION_NOT_ALLOWED and an empty
driver trace (no connection opened, no network call); a matching
statement passes the check and the adapter proceeds to open a
connection. -/
theorem claim_C1_thm (q : String) (be : SqlBackend) (t : Nat) :
    (pgIsReadOnlyQuery q = false →
      PostgreSQLConnection.executeQuery be t q =
        (.error
          { message := "Only read-only queries are allowed (SELECT, SHOW, EXPLAIN, WITH...AS)"
            code := some "WRITE_OPERATION_NOT_ALLOWED"
            detail := none },
         []))
    ∧ (pgIsReadOnlyQuery q = true →
      (PostgreSQLConnection.executeQuery be t q).2.head? = some .connect)
    ∧ (mysqlIsReadOnlyQuery q = false →
      MySQLConnection.executeQuery be t q =
        (.error
          { message := "Only read-only queries are allowed (SELECT, SHOW, DESCRIBE, EXPLAIN)"
            code := some "WRITE_OPERATION_NOT_ALLOWED"
            sqlState := none },
         []))
    ∧ (mysqlIsReadOnlyQuery q = true →
      (MySQLConnection.executeQuery be t q).2.head? = some .connect) := by
  refine ⟨?_, ?_, ?_, ?_⟩ <;> intro h
  · simp [PostgreSQLConnection.executeQuery, PostgreSQLConnection.validateReadOnlyQuery, h]
  · cases hc : be.connectResult with
    | error t0 =>
      simp [PostgreSQLConnection.executeQuery, PostgreSQLConnection.validateReadOnlyQuery,
        h, hc]
    | ok u =>
      cases hq : be.queryResult q with
      | ok rows =>
        simp [PostgreSQLConnection.executeQuery, PostgreSQLConnection.validateReadOnlyQuery,
          h, hc, hq]
      | error t0 =>
        simp [PostgreSQLConnection.executeQuery, PostgreSQLConnection.validateReadOnlyQuery,
          h, hc, hq]
  · simp [MySQLConnection.executeQuery, MySQLConnection.validateReadOnlyQuery, h]
  · cases hc : be.connectResult with
    | error t0 =>
      simp [MySQLConnection.executeQuery, MySQLConnection.validateReadOnlyQuery, h, hc]
    | ok u =>
      cases hq : be.queryResult q with
      | ok rows =>
        simp [MySQLConnection.executeQuery, MySQLConnection.validateReadOnlyQuery, h, hc, hq]
      | error t0 =>
        simp [MySQLConnection.executeQuery, MySQLConnection.validateReadOnlyQuery, h, hc, hq]

/-- C1 witness: the amended theorem applied at concrete statements —
"drop table users" is rejected by the PostgreSQL adapter with an empty
trace, and "select * from users" passes its check and reaches the
driver. -/
theorem claim_C1_witness :
    PostgreSQLConnection.executeQuery beTwoRows 5 "drop table users" =
      (.error
        { message := "Only read-only queries are allowed (SELECT, SHOW, EXPLAIN, WITH...AS)"
          code := some "WRITE_OPERATION_NOT_ALLOWED"
          detail := none },
       [])
    ∧ (PostgreSQLConnection.executeQuery beTwoRows 5 "select * from users").2.head?
        = some .connect := by
  exact ⟨(claim_C1_thm "drop table users" beTwoRows 5).1 (by decide),
    (claim_C1_thm "select * from users" beTwoRows 5).2.1 (by decide)⟩

/-- C2 counterexample: the Datadog query_metrics handler has no
try/catch — when the backend call fails, the handler's outcome is the
thrown DatadogMCPError, not a result envelope, so the failure
propagates out of the handler. -/
theorem claim_C2_counterexample :
    DatadogMCPTools.queryMetrics (.error (.jsErr "API Error"))
        ⟨"avg:system.cpu.idle", 1609459200, 1609459800⟩
      = .error (.ddMCP
          { message := "Failed to query metrics: API Error"
            code := "METRICS_QUERY_FAILED"
            causeMessage := some "API Error" })
    ∧ (DatadogMCPTools.queryMetrics (.error (.jsErr "API Error"))
        ⟨"avg:system.cpu.idle", 1609459200, 1609459800⟩).isOk = false := by
  exact ⟨rfl, by decide⟩

/-- C2 (amended): the PostgreSQL, MySQL and AWS Secrets Manager tool
handlers (and Datadog's get_active_metrics) absorb every failure —
including every thrown value — into a well-formed single-text-item
envelope and never throw; the remaining Datadog handlers
(e.g. query_metrics) instead propagate the classified client error. -/
theorem claim_C2_thm (o : Except Thrown QueryResult)
    (od : Except Thrown (List Json)) (oc ou : Except Thrown SecretOpResult)
    (oa : Except Thrown Json) (p : ReadQueryParams) (dp : DescribeTableParams)
    (cp : CreateSecretParams) (up : UpdateSecretParams) (f s : Int) :
    wellFormedEnvelope (PostgreSQLMCPTools.readQueryHandle o p) = true
    ∧ wellFormedEnvelope (MySQLMCPTools.readQueryHandle o p) = true
    ∧ wellFormedEnvelope (PostgreSQLMCPTools.describeTableHandle od dp) = true
    ∧ wellFormedEnvelope (AWSSecretsManagerMCPTools.createSecret oc cp) = true
    ∧ wellFormedEnvelope (AWSSecretsManagerMCPTools.updateSecret ou up) = true
    ∧ wellFormedEnvelope (DatadogMCPTools.getActiveMetrics oa f s) = true := by
  refine ⟨?_, ?_, ?_, ?_, ?_, ?_⟩
  · cases o <;> rfl
  · cases o <;> rfl
  · cases od <;> rfl
  · cases oc <;> rfl
  · cases ou <;> rfl
  · cases oa <;> rfl

/-- C8: read_query on {query: "SELECT * FROM users"} against a mocked
adapter returning two rows in 15 ms yields an envelope whose JSON
payload has rowCount 2, executionTime "15ms" and a 2-element data
array — in both the PostgreSQL and the MySQL package. -/
theorem claim_C8_thm :
    envelopeField (PostgreSQLMCPTools.readQuery beTwoRows 15 ⟨"SELECT * FROM users"⟩)
        "rowCount" = some (.num 2)
    ∧ envelopeField (PostgreSQLMCPTools.readQuery beTwoRows 15 ⟨"SELECT * FROM users"⟩)
        "executionTime" = some (.str "15ms")
    ∧ envelopeField (PostgreSQLMCPTools.readQuery beTwoRows 15 ⟨"SELECT * FROM users"⟩)
        "data" = some (.arr [rowAlice, rowBob])
    ∧ ([rowAlice, rowBob] : List Json).length = 2
    ∧ envelopeField (MySQLMCPTools.readQuery beTwoRows 15 ⟨"SELECT * FROM users"⟩)
        "rowCount" = some (.num 2)
    ∧ envelopeField (MySQLMCPTools.readQuery beTwoRows 15 ⟨"SELECT * FROM users"⟩)
        "executionTime" = some (.str "15ms")
    ∧ envelopeField (MySQLMCPTools.readQuery beTwoRows 15 ⟨"SELECT * FROM users"⟩)
        "data" = some (.arr [rowAlice, rowBob]) := by
  exact ⟨rfl, rfl, rfl, rfl, rfl, rfl, rfl⟩

/-- C9: delivering two terminate signals in quick succession runs the
shutdown closure twice; each run performs cleanup without throwing
(cleanup absorbs any disconnect failure) and exits with status 0. -/
theorem claim_C9_thm (d1 d2 : Except Thrown Unit) :
    PostgreSQLMCPServer.handleSignals [d1, d2] = [.ok 0, .ok 0]
    ∧ PostgreSQLMCPServer.handleSignals
        [PostgreSQLConnection.disconnect, PostgreSQLConnection.disconnect]
        = [.ok 0, .ok 0] := by
  refine ⟨?_, rfl⟩
  cases d1 <;> cases d2 <;> rfl

/-- C3: on every per-call executeQuery that passes validation and
acquires a connection, the connection's end() is invoked exactly once,
whatever the driver call's outcome — in both SQL adapters. -/
theorem claim_C3_thm (be : SqlBackend) (t : Nat) (q q2 : String)
    (hv : pgIsReadOnlyQuery q = true)
    (hv2 : mysqlIsReadOnlyQuery q2 = true)
    (hc : be.connectResult = .ok ()) :
    countEnd (PostgreSQLConnection.executeQuery be t q).2 = 1
    ∧ countEnd (MySQLConnection.executeQuery be t q2).2 = 1 := by
  constructor
  · cases hq : be.queryResult q with
    | ok rows =>
      simp [PostgreSQLConnection.executeQuery, PostgreSQLConnection.validateReadOnlyQuery,
        hv, hc, hq, countEnd]
    | error t0 =>
      simp [PostgreSQLConnection.executeQuery, PostgreSQLConnection.validateReadOnlyQuery,
        hv, hc, hq, countEnd]
  · cases hq : be.queryResult q2 with
    | ok rows =>
      simp [MySQLConnection.executeQuery, MySQLConnection.validateReadOnlyQuery,
        hv2, hc, hq, countEnd]
    | error t0 =>
      simp [MySQLConnection.executeQuery, MySQLConnection.validateReadOnlyQuery,
        hv2, hc, hq, countEnd]

/-- C3 witness: with a backend whose driver call fails, end() is still
invoked exactly once on both adapters. -/
theorem claim_C3_witness :
    countEnd (PostgreSQLConnection.executeQuery beQueryFail 5 "select * from users").2 = 1
    ∧ countEnd (MySQLConnection.executeQuery beQueryFail 5 "select * from users").2 = 1 := by
  exact claim_C3_thm beQueryFail 5 "select * from users" "select * from users"
    (by decide) (by decide) rfl

/-- C4: in both SQL servers, the transport is bound exactly when the
startup probe (connect then testConnection) succeeds; when the probe
fails, the transport is never bound, cleanup runs, and the process
exits with status 1. -/
theorem claim_C4_thm (connectOk testOk bindOk : Bool) :
    (StartEvent.bindTransport ∈ (PostgreSQLMCPServer.start connectOk testOk bindOk).events
      ↔ (connectOk = true ∧ testOk = true))
    ∧ (¬(connectOk = true ∧ testOk = true) →
      StartEvent.bindTransport ∉ (PostgreSQLMCPServer.start connectOk testOk bindOk).events
      ∧ StartEvent.cleanupRun ∈ (PostgreSQLMCPServer.start connectOk testOk bindOk).events
      ∧ (PostgreSQLMCPServer.start connectOk testOk bindOk).exitCode = some 1)
    ∧ (StartEvent.bindTransport ∈ (MySQLMCPServer.start connectOk testOk bindOk).events
      ↔ (connectOk = true ∧ testOk = true))
    ∧ (¬(connectOk = true ∧ testOk = true) →
      StartEvent.bindTransport ∉ (MySQLMCPServer.start connectOk testOk bindOk).events
      ∧ StartEvent.cleanupRun ∈ (MySQLMCPServer.start connectOk testOk bindOk).events
      ∧ (MySQLMCPServer.start connectOk testOk bindOk).exitCode = some 1) := by
  cases connectOk <;> cases testOk <;> cases bindOk <;> decide

/-- C4 witness: with a failing connectivity test, the PostgreSQL server
start never binds the transport, runs cleanup, and exits 1. -/
theorem claim_C4_witness :
    StartEvent.bindTransport ∉ (PostgreSQLMCPServer.start true false true).events
    ∧ StartEvent.cleanupRun ∈ (PostgreSQLMCPServer.start true false true).events
    ∧ (PostgreSQLMCPServer.start true false true).exitCode = some 1 := by
  exact (claim_C4_thm true false true).2.1 (by decide)

/-- C10: whenever executeQuery returns a result, rowCount equals the
length of the normalized data array; and when the driver produced a
non-array row payload, data is empty and rowCount is 0 — in both SQL
adapters. -/
theorem claim_C10_thm (be : SqlBackend) (t : Nat) (q q2 : String) :
    (∀ res, (PostgreSQLConnection.executeQuery be t q).1 = .ok res →
      res.rowCount = res.data.length
      ∧ (∀ v, be.queryResult q = .ok (.nonArray v) →
          res.data = [] ∧ res.rowCount = 0))
    ∧ (∀ res, (MySQLConnection.executeQuery be t q2).1 = .ok res →
      res.rowCount = res.data.length
      ∧ (∀ v, be.queryResult q2 = .ok (.nonArray v) →
          res.data = [] ∧ res.rowCount = 0)) := by
  constructor
  · intro res h
    unfold PostgreSQLConnection.executeQuery at h
    cases hval : PostgreSQLConnection.validateReadOnlyQuery q with
    | error e => rw [hval] at h; simp at h
    | ok u =>
      rw [hval] at h
      cases hc : be.connectResult with
      | error tc => rw [hc] at h; simp at h
      | ok uc =>
        rw [hc] at h
        cases hq : be.queryResult q with
        | error tq => rw [hq] at h; simp at h
        | ok rows =>
          rw [hq] at h
          simp at h
          subst h
          cases rows with
          | rowsArray l => exact ⟨rfl, fun v hv => by simp at hv⟩
          | nonArray v0 => exact ⟨rfl, fun v hv => ⟨rfl, rfl⟩⟩
  · intro res h
    unfold MySQLConnection.executeQuery at h
    cases hval : MySQLConnection.validateReadOnlyQuery q2 with
    | error e => rw [hval] at h; simp at h
    | ok u =>
      rw [hval] at h
      cases hc : be.connectResult with
      | error tc => rw [hc] at h; simp at h
      | ok uc =>
        rw [hc] at h
        cases hq : be.queryResult q2 with
        | error tq => rw [hq] at h; simp at h
        | ok rows =>
          rw [hq] at h
          simp at h
          subst h
          cases rows with
          | rowsArray l => exact ⟨rfl, fun v hv => by simp at hv⟩
          | nonArray v0 => exact ⟨rfl, fun v hv => ⟨rfl, rfl⟩⟩

/-- C10 witness: with a driver returning a non-array payload, the
PostgreSQL adapter returns data = [] and rowCount = 0. -/
theorem claim_C10_witness :
    ((⟨[], 0, 7⟩ : QueryResult).rowCount = (⟨[], 0, 7⟩ : QueryResult).data.length)
    ∧ ((⟨[], 0, 7⟩ : QueryResult).data = [] ∧ (⟨[], 0, 7⟩ : QueryResult).rowCount = 0) := by
  have h := (claim_C10_thm beNonArray 7 "select 1 from t" "select 1 from t").1
    ⟨[], 0, 7⟩ rfl
  exact ⟨h.1, h.2 (.obj [("affectedRows", .num 0)]) rfl⟩

/-- C5: getSpansMetrics always issues exactly its three tag-filtered
sub-queries (Promise.all starts all of them), succeeds precisely when
all three succeed — merging the three responses and the query_info into
one record — and otherwise fails as one unit with a single classified
SPANS_METRICS_FAILED error. -/
theorem claim_C5_thm (api : String → Except Thrown Json)
    (params : SpansMetricsParams) :
    (DatadogClient.getSpansMetrics api params).2 = spansQueries params
    ∧ ((DatadogClient.getSpansMetrics api params).1.isOk = true ↔
        ((api ("avg:trace.servlet.request.hits" ++ spansTagFilter params)).isOk = true
         ∧ (api ("avg:trace.servlet.request.duration" ++ spansTagFilter params)).isOk = true
         ∧ (api ("avg:trace.servlet.request.errors" ++ spansTagFilter params)).isOk = true))
    ∧ (∀ v, (DatadogClient.getSpansMetrics api params).1 = .ok v →
        api ("avg:trace.servlet.request.hits" ++ spansTagFilter params) = .ok v.hits
        ∧ api ("avg:trace.servlet.request.duration" ++ spansTagFilter params) = .ok v.duration
        ∧ api ("avg:trace.servlet.request.errors" ++ spansTagFilter params) = .ok v.errors
        ∧ v.query_info = ⟨params.service, params.operation, params.resource, params.env⟩)
    ∧ (∀ e, (DatadogClient.getSpansMetrics api params).1 = .error e →
        e.code = "SPANS_METRICS_FAILED") := by
  refine ⟨rfl, ?_, ?_, ?_⟩
  · simp only [DatadogClient.getSpansMetrics, spansQueries]
    cases api ("avg:trace.servlet.request.hits" ++ spansTagFilter params) <;>
      cases api ("avg:trace.servlet.request.duration" ++ spansTagFilter params) <;>
        cases api ("avg:trace.servlet.request.errors" ++ spansTagFilter params) <;>
          simp [Except.isOk, Except.toBool]
  · simp only [DatadogClient.getSpansMetrics, spansQueries]
    cases api ("avg:trace.servlet.request.hits" ++ spansTagFilter params) <;>
      cases api ("avg:trace.servlet.request.duration" ++ spansTagFilter params) <;>
        cases api ("avg:trace.servlet.request.errors" ++ spansTagFilter params) <;>
          intro v hv <;>
          (injection hv <;> rename_i h4 <;> subst h4 <;> exact ⟨rfl, rfl, rfl, rfl⟩)
  · simp only [DatadogClient.getSpansMetrics, spansQueries]
    cases api ("avg:trace.servlet.request.hits" ++ spansTagFilter params) <;>
      cases api ("avg:trace.servlet.request.duration" ++ spansTagFilter params) <;>
        cases api ("avg:trace.servlet.request.errors" ++ spansTagFilter params) <;>
          intro e he <;>
          (injection he <;> rename_i h4 <;> subst h4 <;> rfl)

/-- C5 witness: with an echoing metrics API, getSpansMetrics merges the
three sub-results; with a failing API, the single classified error
carries the SPANS_METRICS_FAILED code. -/
theorem claim_C5_witness :
    (apiEcho "avg:trace.servlet.request.hits\x7bservice:api,env:production\x7d"
      = .ok (Json.str "avg:trace.servlet.request.hits\x7bservice:api,env:production\x7d")
     ∧ apiEcho "avg:trace.servlet.request.duration\x7bservice:api,env:production\x7d"
      = .ok (Json.str "avg:trace.servlet.request.duration\x7bservice:api,env:production\x7d")
     ∧ apiEcho "avg:trace.servlet.request.errors\x7bservice:api,env:production\x7d"
      = .ok (Json.str "avg:trace.servlet.request.errors\x7bservice:api,env:production\x7d")
     ∧ (⟨some "api", none, none, some "production"⟩ : SpansQueryInfo)
      = ⟨some "api", none, none, some "production"⟩)
    ∧ ({ message := "Failed to get spans metrics: API Error"
         code := "SPANS_METRICS_FAILED"
         causeMessage := some "API Error" } : DatadogMCPError).code
      = "SPANS_METRICS_FAILED" := by
  exact ⟨(claim_C5_thm apiEcho spansParamsW).2.2.1
      ⟨.str "avg:trace.servlet.request.hits\x7bservice:api,env:production\x7d",
       .str "avg:trace.servlet.request.duration\x7bservice:api,env:production\x7d",
       .str "avg:trace.servlet.request.errors\x7bservice:api,env:production\x7d",
       ⟨some "api", none, none, some "production"⟩⟩ rfl,
    (claim_C5_thm apiFail spansParamsW).2.2.2
      { message := "Failed to get spans metrics: API Error"
        code := "SPANS_METRICS_FAILED"
        causeMessage := some "API Error" } rfl⟩

/-- C6 counterexample: the claim quantifies over every handler, but
Datadog's get_active_metrics places "Error retrieving active metrics:
<message>" in the envelope — even though the value its catch receives is
the package's recognized backend error (a DatadogMCPError wrapped by the
client), the message is prefixed neither with the backend tag
"Datadog Error:" nor with the generic "Unexpected error:" tag. -/
theorem claim_C6_counterexample :
    DatadogClient.queryMetrics (.error (.jsErr "API Error"))
      = .error
          { message := "Failed to query metrics: API Error"
            code := "METRICS_QUERY_FAILED"
            causeMessage := some "API Error" }
    ∧ (DatadogMCPTools.getActiveMetrics (.error (.jsErr "API Error")) 100 200).content
      = [⟨"text", .plainText
          "Error retrieving active metrics: Failed to query metrics: API Error"⟩]
    ∧ strHasPrefix "Error retrieving active metrics: Failed to query metrics: API Error"
        "Datadog Error:" = false
    ∧ strHasPrefix "Error retrieving active metrics: Failed to query metrics: API Error"
        "Unexpected error:" = false := by
  exact ⟨rfl, rfl, by decide, by decide⟩

/-- C6 (amended): in the handlers that use the instanceof-based
classification (all PostgreSQL, MySQL, AWS Secrets Manager, NPM and
TempMail tools — here read_query and create_secret), the error message
placed in the envelope carries the backend tag exactly when the thrown
value is the package's own error class, and the "Unexpected error:" tag
in every other case; Datadog's handlers are the exception noted in the
counterexample. -/
theorem claim_C6_thm (t : Thrown) (p : ReadQueryParams) (cp : CreateSecretParams) :
    (∀ e, t = Thrown.pgMCP e →
      envelopeErrorText (PostgreSQLMCPTools.readQueryHandle (.error t) p)
        = some ("PostgreSQL Error: " ++ e.message))
    ∧ ((∀ e, t ≠ Thrown.pgMCP e) →
      envelopeErrorText (PostgreSQLMCPTools.readQueryHandle (.error t) p)
        = some ("Unexpected error: " ++ t.messageOrUnknown))
    ∧ (∀ e, t = Thrown.awsMCP e →
      envelopeErrorText (AWSSecretsManagerMCPTools.createSecret (.error t) cp)
        = some ("AWS Secrets Manager Error: " ++ e.message))
    ∧ ((∀ e, t ≠ Thrown.awsMCP e) →
      envelopeErrorText (AWSSecretsManagerMCPTools.createSecret (.error t) cp)
        = some ("Unexpected error: " ++ t.messageOrUnknown)) := by
  refine ⟨?_, ?_, ?_, ?_⟩
  · rintro e rfl
    rfl
  · intro h
    cases t with
    | pgMCP e => exact absurd rfl (h e)
    | myMCP e => rfl
    | awsMCP e => rfl
    | ddMCP e => rfl
    | jsErr m => rfl
    | nonErrorValue r => rfl
  · rintro e rfl
    rfl
  · intro h
    cases t with
    | awsMCP e => exact absurd rfl (h e)
    | pgMCP e => rfl
    | myMCP e => rfl
    | ddMCP e => rfl
    | jsErr m => rfl
    | nonErrorValue r => rfl

/-- C6 witness: a thrown PostgreSQLMCPError yields the "PostgreSQL
Error:" tag in read_query, and a plain Error thrown in create_secret
yields the "Unexpected error:" tag. -/
theorem claim_C6_witness :
    envelopeErrorText (PostgreSQLMCPTools.readQueryHandle
        (.error (.pgMCP { message := "relation does not exist", code := some "42P01" }))
        ⟨"SELECT * FROM missing"⟩)
      = some ("PostgreSQL Error: " ++ "relation does not exist")
    ∧ envelopeErrorText (AWSSecretsManagerMCPTools.createSecret
        (.error (.jsErr "socket hang up")) ⟨"prod/db", "v", none, []⟩)
      = some ("Unexpected error: " ++ (Thrown.jsErr "socket hang up").messageOrUnknown) := by
  exact ⟨(claim_C6_thm (.pgMCP { message := "relation does not exist", code := some "42P01" })
      ⟨"SELECT * FROM missing"⟩ ⟨"prod/db", "v", none, []⟩).1
      { message := "relation does not exist", code := some "42P01" } rfl,
    (claim_C6_thm (.jsErr "socket hang up")
      ⟨"SELECT * FROM missing"⟩ ⟨"prod/db", "v", none, []⟩).2.2.2
      (fun e h => nomatch h)⟩

/-- C7 counterexample: on a backend fault, Datadog's get_active_metrics
returns an envelope whose text is a plain template string, not a JSON
payload — it contains no backend-identifying tag (no "Datadog Error:"),
so the claim's universal quantification over every tool call fails. -/
theorem claim_C7_counterexample :
    (DatadogMCPTools.getActiveMetrics
        (.error (.ddMCP { message := "rate limited", code := "METRICS_QUERY_FAILED" }))
        100 200).content
      = [⟨"text", .plainText
          "Error retrieving active metrics: Failed to query metrics: rate limited"⟩]
    ∧ strContains "Error retrieving active metrics: Failed to query metrics: rate limited"
        "Datadog Error:" = false
    ∧ envelopeErrorText (DatadogMCPTools.getActiveMetrics
        (.error (.ddMCP { message := "rate limited", code := "METRICS_QUERY_FAILED" }))
        100 200) = none := by
  exact ⟨rfl, by decide, rfl⟩

/-- C7 (amended): in every tool handler that absorbs backend faults into
a JSON error envelope (here PostgreSQL read_query and describe_table,
and AWS update_secret), the payload carries both the backend tag on its
error field and the identifying field of the original request (the query
string, the table name, the secret id). -/
theorem claim_C7_thm (e : PostgreSQLMCPError) (p : ReadQueryParams)
    (dp : DescribeTableParams) (ae : AWSSecretsManagerMCPError)
    (up : UpdateSecretParams) :
    (envelopeField (PostgreSQLMCPTools.readQueryHandle (.error (.pgMCP e)) p) "error"
        = some (.str ("PostgreSQL Error: " ++ e.message))
     ∧ envelopeField (PostgreSQLMCPTools.readQueryHandle (.error (.pgMCP e)) p) "query"
        = some (.str p.query))
    ∧ (envelopeField (PostgreSQLMCPTools.describeTableHandle (.error (.pgMCP e)) dp) "error"
        = some (.str ("PostgreSQL Error: " ++ e.message))
     ∧ envelopeField (PostgreSQLMCPTools.describeTableHandle (.error (.pgMCP e)) dp) "tableName"
        = some (.str dp.tableName))
    ∧ (envelopeField (AWSSecretsManagerMCPTools.updateSecret (.error (.awsMCP ae)) up) "error"
        = some (.str ("AWS Secrets Manager Error: " ++ ae.message))
     ∧ envelopeField (AWSSecretsManagerMCPTools.updateSecret (.error (.awsMCP ae)) up) "secretId"
        = some (.str up.secretId)) := by
  exact ⟨⟨rfl, rfl⟩, ⟨rfl, rfl⟩, ⟨rfl, rfl⟩⟩
